import Mathlib

/-!
Shallow embedding of `demos/ConstrainedPlanning.cpp` (OMPL constrained-planning
demo driver).  The driver parses CLI arguments, wires up either an atlas-based
or a projection-based manifold state space, runs an externally supplied planner
for a time budget, and dumps the solution path / planner graph / chart mesh to
files.  Everything the external library does (problem parsing, planning,
manifold traversal, distances, state vectors) is abstracted into an `Env`
record of oracles; the control flow, file writes, prints and the anim-loop
index arithmetic are embedded faithfully from the source.
-/

namespace ConstrainedPlanning

/-- Abstract identifier for an `ompl::base::State *`. -/
abbrev StateId := Nat

/-- Oracles for everything supplied by the external OMPL library and the
`ConstrainedPlanningCommon.h` helpers: results of `parseProblem`,
construction success of the state space and planner, `std::atof`, the
`PlannerStatus` returned by `solve` (its boolean conversion and whether it
equals `APPROXIMATE_SOLUTION`), the solution path's waypoints, and the
atlas/projection operations used by the anim loop. -/
structure Env where
  /-- Model of `x.size()`: the ambient dimension of the problem parsed from `argv[1]`. -/
  xSize : Nat
  /-- whether the atlas / projected state-space pointer is non-null. -/
  spaceOk : Bool
  /-- whether `parsePlanner(argv[2], ...)` returns a non-null pointer. -/
  plannerOk : Bool
  /-- model of `std::atof` applied to an argument string. -/
  atof : String → Rat
  /-- the boolean conversion of the `PlannerStatus` returned by `solve`
  (true on exact or approximate solutions). -/
  statSolved : Bool
  /-- whether the status equals `PlannerStatus::APPROXIMATE_SOLUTION`. -/
  statApproximate : Bool
  /-- Model of `path.getStates()`: the waypoints of the solution path. -/
  waypoints : List StateId
  /-- Model of `traverseManifold(from, to, true, &stateList)`: the produced state list. -/
  traverse : StateId → StateId → List StateId
  /-- Model of `equalStates` on the state space. -/
  equalStates : StateId → StateId → Bool
  /-- Model of `constVectorView().transpose()`: the ambient coordinates of a state. -/
  vec : StateId → List Rat
  /-- Model of `distance` on the state space. -/
  distance : StateId → StateId → Rat
  /-- whether `"approx goal distance REAL"` is among the planner-data properties. -/
  approxGoalDistProp : Bool
  /-- Model of `atlas->getChartCount()`. -/
  chartCount : Nat

/-- One line printed to standard output by `main` (the usage text is tracked
separately by the `usagePrinted` flag). -/
inductive Event where
  | approximateMsg
  | lengthMsg (len : Rat)
  | tookMsg
  | noSolutionMsg
  | approxGoalDistMsg
  | chartCountMsg (n : Nat)
  | frontierMsg
deriving DecidableEq

/-- Observable trace of one process run: whether the usage text was printed
(`usage` prints it and calls `exit(0)`), whether `solve` was ever called, the
stdout lines from `main`, the files opened for writing in order, the state
vectors written to `anim.txt`, whether the run hit undefined behavior
(out-of-bounds vector access), and the process exit status. -/
structure RunResult where
  usagePrinted : Bool
  solveCalled : Bool
  events : List Event
  files : List String
  animLines : List (List Rat)
  ub : Bool
  exitCode : Nat
deriving DecidableEq

/-- Result of `usage(argv[0])`: prints the usage text and calls `exit(0)`. -/
def usageResult : RunResult :=
  { usagePrinted := true, solveCalled := false, events := [], files := [],
    animLines := [], ub := false, exitCode := 0 }

/-- Model of `std::size_t` subtraction `a - b` as used in `waypoints.size() - 1`:
unsigned arithmetic wrapping modulo `2 ^ 64` (for `a < 2 ^ 64`, `b ≤ 2 ^ 64`). -/
def sub64 (a b : Nat) : Nat := (a + 2 ^ 64 - b) % 2 ^ 64

/-- Running sum `Σ distance(stateList[i-1], stateList[i])` for `i` from 1, written as a
walk from a previous state along the rest of the list. -/
def segDist (env : Env) : StateId → List StateId → Rat
  | _, [] => 0
  | prev, x :: rest => env.distance prev x + segDist env x rest

/-- Body of the anim loop of `main`, iterating over the remaining index list.
Each iteration reads `waypoints[i]` and `waypoints[i+1]` (out of bounds sets
the `ub` flag and stops), calls `traverseManifold` (calling `front()` on an
empty result is also undefined behavior), and either writes the single front
state when the traversal's first and last states are equal, or writes
`stateList[1..]` and accumulates the traversal distances into `length`. -/
def animLoopAux (env : Env) (ws : List StateId) :
    List Nat → List (List Rat) → Rat → List (List Rat) × Rat × Bool
  | [], lines, len => (lines, len, false)
  | i :: rest, lines, len =>
    match ws[i]?, ws[i + 1]? with
    | some a, some b =>
      match env.traverse a b with
      | [] => (lines, len, true)
      | s :: tl =>
        if env.equalStates s (tl.getLastD s) then
          animLoopAux env ws rest (lines ++ [env.vec s]) len
        else
          animLoopAux env ws rest (lines ++ tl.map env.vec) (len + segDist env s tl)
    | _, _ => (lines, len, true)

/-- The anim loop `for (std::size_t i = 0; i < waypoints.size() - 1; i++)`:
the bound is the `size_t` value `waypoints.size() - 1`.  Returns the lines
written to `anim.txt`, the accumulated `length`, and the undefined-behavior
flag. -/
def animLoop (env : Env) (ws : List StateId) : List (List Rat) × Rat × Bool :=
  animLoopAux env ws (List.range (sub64 ws.length 1)) [] 0

/-- Shared body of the two mode branches of `main` (`isAtlas = true` for the
atlas branch, `false` for the projection branch): construction checks, the
time-limit check, `solve`, path/anim dumping, status prints, and the
verbose 3-D mesh/graph dumps. -/
def modeRun (env : Env) (verbose isAtlas : Bool) (tArg : String) : RunResult :=
  if env.spaceOk = false then usageResult
  else if env.plannerOk = false then usageResult
  else if env.atof tArg ≤ 0 then usageResult
  else
    let dump3 : Bool := (env.xSize == 3) && verbose
    let tailFiles : List String :=
      if dump3 then (if isAtlas then ["atlas.ply", "graph.ply"] else ["graph.ply"]) else []
    let tailEvents : List Event :=
      (if env.approxGoalDistProp then [Event.approxGoalDistMsg] else []) ++
        (if isAtlas then [Event.chartCountMsg env.chartCount] else []) ++
        (if isAtlas && dump3 then [Event.frontierMsg] else [])
    if env.statSolved then
      let headFiles : List String := (if dump3 then ["path.ply"] else []) ++ ["anim.txt"]
      let r := animLoop env env.waypoints
      if r.2.2 then
        { usagePrinted := false, solveCalled := true, events := [],
          files := headFiles, animLines := r.1, ub := true, exitCode := 0 }
      else
        { usagePrinted := false, solveCalled := true,
          events := (if env.statApproximate then [Event.approximateMsg] else []) ++
            [Event.lengthMsg r.2.1, Event.tookMsg] ++ tailEvents,
          files := headFiles ++ tailFiles, animLines := r.1, ub := false, exitCode := 0 }
    else
      { usagePrinted := false, solveCalled := true,
        events := Event.noSolutionMsg :: tailEvents,
        files := tailFiles, animLines := [], ub := false, exitCode := 0 }

/-- The `main` function: argument-count and `-v` checks, mode dispatch on
`argv[4]` (`-a` → atlas branch, `-p` → projection branch, anything else
leaves `mode = 0` and falls through to `return 0`). -/
def runMain (env : Env) (args : List String) : RunResult :=
  if ¬ (args.length = 5 ∨ args.length = 6) then usageResult
  else if args.length = 6 ∧ ¬ args[5]? = some "-v" then usageResult
  else if args[4]? = some "-a" then modeRun env (args.length == 6) true (args.getD 3 "")
  else if args[4]? = some "-p" then modeRun env (args.length == 6) false (args.getD 3 "")
  else
    { usagePrinted := false, solveCalled := false, events := [], files := [],
      animLines := [], ub := false, exitCode := 0 }

/-- The consecutive waypoint pairs `(waypoints[i], waypoints[i+1])` of a list,
structurally. -/
def consecutivePairs : List StateId → List (StateId × StateId)
  | [] => []
  | [_] => []
  | a :: b :: rest => (a, b) :: consecutivePairs (b :: rest)

/-- Lines of `anim.txt` that one solution-path segment contributes: the single
front state when the traversal's first and last states are equal, otherwise
`stateList[1..last]`. -/
def segLines (env : Env) (a b : StateId) : List (List Rat) :=
  match env.traverse a b with
  | [] => []
  | s :: tl => if env.equalStates s (tl.getLastD s) then [env.vec s] else tl.map env.vec

/-- Contribution to `length` of one solution-path segment: 0 when the
traversal's first and last states are equal, otherwise the sum of distances
between consecutive traversal states. -/
def segLen (env : Env) (a b : StateId) : Rat :=
  match env.traverse a b with
  | [] => 0
  | s :: tl => if env.equalStates s (tl.getLastD s) then 0 else segDist env s tl

end ConstrainedPlanning

namespace ConstrainedPlanning

lemma sub64_zero_one : sub64 0 1 = 2 ^ 64 - 1 := by
  simp [sub64]

lemma sub64_of_pos {n : Nat} (h1 : 1 ≤ n) (h2 : n < 2 ^ 64) : sub64 n 1 = n - 1 := by
  unfold sub64
  have h3 : n + 2 ^ 64 - 1 = (n - 1) + 2 ^ 64 := by omega
  rw [h3, Nat.add_mod_right, Nat.mod_eq_of_lt (by omega)]

lemma animLoopAux_shift (env : Env) (a : StateId) (ws : List StateId) :
    ∀ (js : List Nat) (lines : List (List Rat)) (len : Rat),
      animLoopAux env (a :: ws) (js.map Nat.succ) lines len = animLoopAux env ws js lines len := by
  intro js
  induction js with
  | nil => intro lines len; rfl
  | cons j rest ih =>
    intro lines len
    simp only [List.map_cons, animLoopAux, List.getElem?_cons_succ]
    cases h1 : ws[j]? with
    | none => rfl
    | some x =>
      cases h2 : ws[j + 1]? with
      | none => rfl
      | some y =>
        dsimp only
        cases h3 : env.traverse x y with
        | nil => rfl
        | cons s tl =>
          dsimp only
          by_cases he : env.equalStates s (tl.getLastD s) = true
          · rw [if_pos he, if_pos he, ih]
          · rw [if_neg he, if_neg he, ih]

end ConstrainedPlanning

namespace ConstrainedPlanning

lemma animLoopAux_range (env : Env) (hT : ∀ a b, env.traverse a b ≠ []) :
    ∀ (ws : List StateId) (lines : List (List Rat)) (len : Rat), ws ≠ [] →
      animLoopAux env ws (List.range (ws.length - 1)) lines len =
        (lines ++ (consecutivePairs ws).flatMap (fun p => segLines env p.1 p.2),
         len + ((consecutivePairs ws).map (fun p => segLen env p.1 p.2)).sum, false) := by
  intro ws
  induction ws with
  | nil => intro _ _ h; exact absurd rfl h
  | cons a ws ih =>
    intro lines len _
    cases ws with
    | nil => simp [animLoopAux, consecutivePairs]
    | cons b rest =>
      have hlen : (a :: b :: rest).length - 1 = rest.length + 1 := by simp
      rw [hlen, List.range_succ_eq_map]
      simp only [animLoopAux, List.getElem?_cons_zero, List.getElem?_cons_succ]
      cases h3 : env.traverse a b with
      | nil => exact absurd h3 (hT a b)
      | cons s tl =>
        dsimp only
        have hrest : (b :: rest).length - 1 = rest.length := by simp
        have hcp : consecutivePairs (a :: b :: rest) = (a, b) :: consecutivePairs (b :: rest) := rfl
        have hsl : segLines env a b =
            (if env.equalStates s (tl.getLastD s) then [env.vec s] else tl.map env.vec) := by
          simp [segLines, h3]
        have hslen : segLen env a b =
            (if env.equalStates s (tl.getLastD s) then 0 else segDist env s tl) := by
          simp [segLen, h3]
        by_cases he : env.equalStates s (tl.getLastD s) = true
        · rw [if_pos he, animLoopAux_shift, ← hrest,
            ih (lines ++ [env.vec s]) len (by simp), hcp]
          simp only [List.flatMap_cons, List.map_cons, List.sum_cons, hsl, hslen,
            if_pos he, Prod.mk.injEq]
          exact ⟨by rw [List.append_assoc], by rw [zero_add], trivial⟩
        · rw [if_neg he, animLoopAux_shift, ← hrest,
            ih (lines ++ tl.map env.vec) (len + segDist env s tl) (by simp), hcp]
          simp only [List.flatMap_cons, List.map_cons, List.sum_cons, hsl, hslen,
            if_neg he, Prod.mk.injEq]
          exact ⟨by rw [List.append_assoc], by rw [add_assoc], trivial⟩


lemma animLoop_spec (env : Env) (hT : ∀ a b, env.traverse a b ≠ [])
    (ws : List StateId) (hne : ws ≠ []) (hlt : ws.length < 2 ^ 64) :
    animLoop env ws =
      ((consecutivePairs ws).flatMap (fun p => segLines env p.1 p.2),
       ((consecutivePairs ws).map (fun p => segLen env p.1 p.2)).sum, false) := by
  have h1 : 1 ≤ ws.length := by
    cases ws with
    | nil => exact absurd rfl hne
    | cons a l => simp
  unfold animLoop
  rw [sub64_of_pos h1 hlt, animLoopAux_range env hT ws [] 0 hne]
  simp

lemma animLoop_nil_ub (env : Env) : (animLoop env []).2.2 = true := by
  unfold animLoop
  rw [show ([] : List StateId).length = 0 from rfl, sub64_zero_one,
    show (2 : Nat) ^ 64 - 1 = (2 ^ 64 - 2) + 1 from by norm_num,
    List.range_succ_eq_map]
  rfl

lemma segDist_nonneg (env : Env) (hD : ∀ a b, 0 ≤ env.distance a b) :
    ∀ (prev : StateId) (sl : List StateId), 0 ≤ segDist env prev sl := by
  intro prev sl
  induction sl generalizing prev with
  | nil => exact le_refl 0
  | cons x rest ih => exact add_nonneg (hD prev x) (ih x)

lemma animLoopAux_len_mono (env : Env) (hD : ∀ a b, 0 ≤ env.distance a b)
    (ws : List StateId) :
    ∀ (js : List Nat) (lines : List (List Rat)) (len : Rat),
      len ≤ (animLoopAux env ws js lines len).2.1 := by
  intro js
  induction js with
  | nil => intro lines len; exact le_refl len
  | cons j rest ih =>
    intro lines len
    simp only [animLoopAux]
    cases h1 : ws[j]? with
    | none => exact le_refl len
    | some x =>
      cases h2 : ws[j + 1]? with
      | none => exact le_refl len
      | some y =>
        dsimp only
        cases h3 : env.traverse x y with
        | nil => exact le_refl len
        | cons s tl =>
          dsimp only
          by_cases he : env.equalStates s (tl.getLastD s) = true
          · rw [if_pos he]; exact ih _ _
          · rw [if_neg he]
            exact le_trans (le_add_of_nonneg_right (segDist_nonneg env hD s tl)) (ih _ _)

lemma runMain_eq_modeRun_a (env : Env) (args : List String)
    (hc : args.length = 5 ∨ (args.length = 6 ∧ args[5]? = some "-v"))
    (hm : args[4]? = some "-a") :
    runMain env args = modeRun env (args.length == 6) true (args.getD 3 "") := by
  rcases hc with h5 | ⟨h6, hv⟩
  · unfold runMain
    rw [if_neg (by simp [h5]), if_neg (by simp [h5]), if_pos hm]
  · unfold runMain
    rw [if_neg (by simp [h6]), if_neg (by simp [hv]), if_pos hm]

lemma runMain_eq_modeRun_p (env : Env) (args : List String)
    (hc : args.length = 5 ∨ (args.length = 6 ∧ args[5]? = some "-v"))
    (hm : args[4]? = some "-p") (hna : ¬ args[4]? = some "-a") :
    runMain env args = modeRun env (args.length == 6) false (args.getD 3 "") := by
  rcases hc with h5 | ⟨h6, hv⟩
  · unfold runMain
    rw [if_neg (by simp [h5]), if_neg (by simp [h5]), if_neg hna, if_pos hm]
  · unfold runMain
    rw [if_neg (by simp [h6]), if_neg (by simp [hv]), if_neg hna, if_pos hm]

lemma modeRun_usage_of_fail (env : Env) (verbose isAtlas : Bool) (tArg : String)
    (h : env.spaceOk = false ∨ env.plannerOk = false) :
    modeRun env verbose isAtlas tArg = usageResult := by
  unfold modeRun
  rcases h with h | h
  · rw [if_pos h]
  · by_cases hs : env.spaceOk = false
    · rw [if_pos hs]
    · rw [if_neg hs, if_pos h]

lemma modeRun_usage_of_nonpos (env : Env) (verbose isAtlas : Bool) (tArg : String)
    (ht : env.atof tArg ≤ 0) :
    modeRun env verbose isAtlas tArg = usageResult := by
  unfold modeRun
  by_cases hs : env.spaceOk = false
  · rw [if_pos hs]
  · rw [if_neg hs]
    by_cases hp : env.plannerOk = false
    · rw [if_pos hp]
    · rw [if_neg hp, if_pos ht]


/-- A sample environment: a 3-dimensional problem, successful construction,
a time limit parsing to 1 second, an exact solution with waypoints 0, 1, 2,
and each manifold traversal producing exactly its two endpoint states. -/
def env0 : Env :=
  { xSize := 3, spaceOk := true, plannerOk := true, atof := fun _ => 1,
    statSolved := true, statApproximate := false, waypoints := [0, 1, 2],
    traverse := fun a b => [a, b], equalStates := fun a b => a == b,
    vec := fun s => [(s : Rat)], distance := fun _ _ => 1,
    approxGoalDistProp := false, chartCount := 2 }

/-- Environment `env0` with a solve call that reports no solution. -/
def envNoSolution : Env := { env0 with statSolved := false }

/-- Environment `env0` with an approximate solution status. -/
def envApprox : Env := { env0 with statApproximate := true }

/-- Environment `env0` with a planner whose construction yields a null pointer. -/
def envNoPlanner : Env := { env0 with plannerOk := false }

/-- Environment `env0` with a time-limit argument parsing to 0. -/
def envZeroTime : Env := { env0 with atof := fun _ => 0 }

lemma wellformed_of_checks (args : List String)
    (hargs : ¬ ¬ (args.length = 5 ∨ args.length = 6))
    (hv6 : ¬ (args.length = 6 ∧ ¬ args[5]? = some "-v")) :
    args.length = 5 ∨ (args.length = 6 ∧ args[5]? = some "-v") := by
  rcases not_not.mp hargs with h5 | h6
  · exact Or.inl h5
  · right
    refine ⟨h6, ?_⟩
    by_contra hv
    exact hv6 ⟨h6, hv⟩

/-- C1 counterexample: the claim asserts that an invocation with a well-formed
argument count but a mode argument that is neither "-a" nor "-p" makes the
program print the usage message; at this concrete invocation (mode "-x") the
program prints no usage message, never plans, and returns 0. -/
theorem c1_counterexample :
    (runMain env0 ["demo", "sphere", "rrt", "1", "-x"]).usagePrinted = false ∧
    (runMain env0 ["demo", "sphere", "rrt", "1", "-x"]).solveCalled = false ∧
    (runMain env0 ["demo", "sphere", "rrt", "1", "-x"]).exitCode = 0 := by
  decide

/-- C1 (amended): for every invocation with 5 or 6 well-formed arguments whose
mode argument is neither "-a" nor "-p", the program performs no planning and
terminates with exit status 0, but does not print the usage message. -/
theorem c1_unrecognized_mode (env : Env) (args : List String)
    (hc : args.length = 5 ∨ (args.length = 6 ∧ args[5]? = some "-v"))
    (ha : ¬ args[4]? = some "-a") (hp : ¬ args[4]? = some "-p") :
    (runMain env args).usagePrinted = false ∧ (runMain env args).solveCalled = false ∧
    (runMain env args).exitCode = 0 := by
  have h : runMain env args =
      { usagePrinted := false, solveCalled := false, events := [], files := [],
        animLines := [], ub := false, exitCode := 0 } := by
    rcases hc with h5 | ⟨h6, hv⟩
    · unfold runMain
      rw [if_neg (by simp [h5]), if_neg (by simp [h5]), if_neg ha, if_neg hp]
    · unfold runMain
      rw [if_neg (by simp [h6]), if_neg (by simp [hv]), if_neg ha, if_neg hp]
  rw [h]
  exact ⟨rfl, rfl, rfl⟩

/-- C1 witness: the amended statement at a concrete 6-argument invocation
with unrecognized mode "-q". -/
theorem c1_witness :
    (runMain env0 ["demo", "torus", "prm", "2", "-q", "-v"]).usagePrinted = false ∧
    (runMain env0 ["demo", "torus", "prm", "2", "-q", "-v"]).solveCalled = false ∧
    (runMain env0 ["demo", "torus", "prm", "2", "-q", "-v"]).exitCode = 0 :=
  c1_unrecognized_mode env0 ["demo", "torus", "prm", "2", "-q", "-v"]
    (Or.inr ⟨rfl, rfl⟩) (by decide) (by decide)

/-- C8: with 5 well-formed arguments (or 6 ending in "-v") and a mode argument
that is neither "-a" nor "-p", the program performs no planning, writes no
files, prints nothing (in particular no usage message), and returns exit
status 0. -/
theorem c8_unrecognized_mode_noop (env : Env) (args : List String)
    (hc : args.length = 5 ∨ (args.length = 6 ∧ args[5]? = some "-v"))
    (ha : ¬ args[4]? = some "-a") (hp : ¬ args[4]? = some "-p") :
    runMain env args =
      { usagePrinted := false, solveCalled := false, events := [], files := [],
        animLines := [], ub := false, exitCode := 0 } := by
  rcases hc with h5 | ⟨h6, hv⟩
  · unfold runMain
    rw [if_neg (by simp [h5]), if_neg (by simp [h5]), if_neg ha, if_neg hp]
  · unfold runMain
    rw [if_neg (by simp [h6]), if_neg (by simp [hv]), if_neg ha, if_neg hp]

/-- C8 witness: the no-op result at a concrete 5-argument invocation with
unrecognized mode "-z". -/
theorem c8_witness :
    runMain env0 ["demo", "sphere", "rrt", "1", "-z"] =
      { usagePrinted := false, solveCalled := false, events := [], files := [],
        animLines := [], ub := false, exitCode := 0 } :=
  c8_unrecognized_mode_noop env0 ["demo", "sphere", "rrt", "1", "-z"]
    (Or.inl rfl) (by decide) (by decide)

/-- C4: if the argument count is not 5 or 6, or the 6th argument is present and
not "-v", or (in a recognized mode) construction of the state-space wrapper or
of the planner yields a null pointer, then the program prints the usage
message and terminates with exit status 0. -/
theorem c4_usage_on_malformed (env : Env) (args : List String)
    (h : ¬ (args.length = 5 ∨ args.length = 6) ∨
      (args.length = 6 ∧ ¬ args[5]? = some "-v") ∨
      ((args[4]? = some "-a" ∨ args[4]? = some "-p") ∧
        (env.spaceOk = false ∨ env.plannerOk = false))) :
    (runMain env args).usagePrinted = true ∧ (runMain env args).exitCode = 0 := by
  have hu : runMain env args = usageResult := by
    rcases h with h | h | ⟨hm, hf⟩
    · unfold runMain
      rw [if_pos h]
    · unfold runMain
      rw [if_neg (by simp [h.1]), if_pos h]
    · by_cases hargs : ¬ (args.length = 5 ∨ args.length = 6)
      · unfold runMain
        rw [if_pos hargs]
      · by_cases hv6 : args.length = 6 ∧ ¬ args[5]? = some "-v"
        · unfold runMain
          rw [if_neg hargs, if_pos hv6]
        · have hc := wellformed_of_checks args hargs hv6
          rcases hm with ha | hp'
          · rw [runMain_eq_modeRun_a env args hc ha,
              modeRun_usage_of_fail env _ true _ hf]
          · have hna : ¬ args[4]? = some "-a" := by
              rw [hp']
              decide
            rw [runMain_eq_modeRun_p env args hc hp' hna,
              modeRun_usage_of_fail env _ false _ hf]
  rw [hu]
  exact ⟨rfl, rfl⟩

/-- C4 witness: usage printed and exit 0 at a concrete invocation whose
planner construction fails. -/
theorem c4_witness :
    (runMain envNoPlanner ["demo", "sphere", "rrt", "1", "-a"]).usagePrinted = true ∧
    (runMain envNoPlanner ["demo", "sphere", "rrt", "1", "-a"]).exitCode = 0 :=
  c4_usage_on_malformed envNoPlanner ["demo", "sphere", "rrt", "1", "-a"]
    (Or.inr (Or.inr ⟨Or.inl (by decide), Or.inr (by decide)⟩))

/-- C5: in a recognized mode, a time-limit argument that parses (via the model
of `std::atof`) to a value ≤ 0 makes the program print the usage message and
exit (status 0) without ever calling the planner's `solve`. -/
theorem c5_timelimit_check (env : Env) (args : List String)
    (hm : args[4]? = some "-a" ∨ args[4]? = some "-p")
    (ht : env.atof (args.getD 3 "") ≤ 0) :
    (runMain env args).usagePrinted = true ∧ (runMain env args).solveCalled = false ∧
    (runMain env args).exitCode = 0 := by
  have hu : runMain env args = usageResult := by
    by_cases hargs : ¬ (args.length = 5 ∨ args.length = 6)
    · unfold runMain
      rw [if_pos hargs]
    · by_cases hv6 : args.length = 6 ∧ ¬ args[5]? = some "-v"
      · unfold runMain
        rw [if_neg hargs, if_pos hv6]
      · have hc := wellformed_of_checks args hargs hv6
        rcases hm with ha | hp'
        · rw [runMain_eq_modeRun_a env args hc ha,
            modeRun_usage_of_nonpos env _ true _ ht]
        · have hna : ¬ args[4]? = some "-a" := by
            rw [hp']
            decide
          rw [runMain_eq_modeRun_p env args hc hp' hna,
            modeRun_usage_of_nonpos env _ false _ ht]
  rw [hu]
  exact ⟨rfl, rfl, rfl⟩

/-- C5 witness: usage and no solve call at a concrete invocation whose
time-limit argument parses to 0. -/
theorem c5_witness :
    (runMain envZeroTime ["demo", "sphere", "rrt", "0", "-a"]).usagePrinted = true ∧
    (runMain envZeroTime ["demo", "sphere", "rrt", "0", "-a"]).solveCalled = false ∧
    (runMain envZeroTime ["demo", "sphere", "rrt", "0", "-a"]).exitCode = 0 :=
  c5_timelimit_check envZeroTime ["demo", "sphere", "rrt", "0", "-a"]
    (Or.inl (by decide)) (by decide)


lemma anim_mem_modeRun (env : Env) (verbose isAtlas : Bool) (tArg : String)
    (hs : env.spaceOk = true) (hpl : env.plannerOk = true)
    (ht : 0 < env.atof tArg) (hsol : env.statSolved = true) :
    "anim.txt" ∈ (modeRun env verbose isAtlas tArg).files := by
  unfold modeRun
  rw [if_neg (by simp [hs]), if_neg (by simp [hpl]), if_neg (not_le.mpr ht)]
  by_cases hub : (animLoop env env.waypoints).2.2 = true
  · simp [hsol, hub]
  · simp [hsol, hub]

/-- C2 counterexample: the claim asserts `anim.txt` is written on every run;
at this concrete run (recognized mode, successful setup) the planner reports
no solution and `anim.txt` is not among the files written. -/
theorem c2_counterexample :
    "anim.txt" ∉ (runMain envNoSolution ["demo", "sphere", "rrt", "1", "-a"]).files := by
  decide

/-- C2 (amended): on every run in a recognized mode whose state-space and
planner construction succeed, whose time limit is positive, and whose solve
call reports a solution, the file `anim.txt` is written (in both modes,
regardless of verbosity and ambient dimension). -/
theorem c2_anim_on_success (env : Env) (args : List String)
    (hc : args.length = 5 ∨ (args.length = 6 ∧ args[5]? = some "-v"))
    (hm : args[4]? = some "-a" ∨ args[4]? = some "-p")
    (hs : env.spaceOk = true) (hpl : env.plannerOk = true)
    (ht : 0 < env.atof (args.getD 3 "")) (hsol : env.statSolved = true) :
    "anim.txt" ∈ (runMain env args).files := by
  rcases hm with ha | hp'
  · rw [runMain_eq_modeRun_a env args hc ha]
    exact anim_mem_modeRun env _ true _ hs hpl ht hsol
  · have hna : ¬ args[4]? = some "-a" := by
      rw [hp']
      decide
    rw [runMain_eq_modeRun_p env args hc hp' hna]
    exact anim_mem_modeRun env _ false _ hs hpl ht hsol

/-- C2 witness: `anim.txt` written at a concrete successful projection-mode run. -/
theorem c2_witness :
    "anim.txt" ∈ (runMain env0 ["demo", "sphere", "rrt", "1", "-p"]).files :=
  c2_anim_on_success env0 ["demo", "sphere", "rrt", "1", "-p"]
    (Or.inl rfl) (Or.inr (by decide)) rfl rfl (by decide) rfl

/-- C3 counterexample: the claim asserts `atlas.ply` is written in the
projection-based mode as well; at this concrete verbose 3-dimensional
projection-mode run with a solution, `atlas.ply` is not among the files
written. -/
theorem c3_counterexample :
    "atlas.ply" ∉ (runMain env0 ["demo", "sphere", "rrt", "1", "-p", "-v"]).files := by
  decide

/-- C3 (amended): for every run with verbose enabled and ambient dimension 3
in which a solution is found (and the anim loop is in bounds): in atlas mode
the program writes `path.ply`, `atlas.ply` and `graph.ply`; in projection mode
it writes `path.ply` and `graph.ply` but never `atlas.ply`. -/
theorem c3_verbose_3d_dumps (env : Env) (args : List String)
    (h6 : args.length = 6) (hv : args[5]? = some "-v") (hx : env.xSize = 3)
    (hs : env.spaceOk = true) (hpl : env.plannerOk = true)
    (ht : 0 < env.atof (args.getD 3 "")) (hsol : env.statSolved = true)
    (hub : (animLoop env env.waypoints).2.2 = false) :
    (args[4]? = some "-a" →
      "path.ply" ∈ (runMain env args).files ∧ "atlas.ply" ∈ (runMain env args).files ∧
      "graph.ply" ∈ (runMain env args).files) ∧
    (args[4]? = some "-p" →
      "path.ply" ∈ (runMain env args).files ∧ "graph.ply" ∈ (runMain env args).files ∧
      "atlas.ply" ∉ (runMain env args).files) := by
  have hc : args.length = 5 ∨ (args.length = 6 ∧ args[5]? = some "-v") := Or.inr ⟨h6, hv⟩
  constructor
  · intro ha
    rw [runMain_eq_modeRun_a env args hc ha]
    unfold modeRun
    rw [if_neg (by simp [hs]), if_neg (by simp [hpl]), if_neg (not_le.mpr ht)]
    simp [hsol, hub, hx, h6]
  · intro hp'
    have hna : ¬ args[4]? = some "-a" := by
      rw [hp']
      decide
    rw [runMain_eq_modeRun_p env args hc hp' hna]
    unfold modeRun
    rw [if_neg (by simp [hs]), if_neg (by simp [hpl]), if_neg (not_le.mpr ht)]
    simp [hsol, hub, hx, h6]

/-- C3 witness: the amended statement at a concrete verbose 3-dimensional run. -/
theorem c3_witness :
    (((["demo", "sphere", "rrt", "1", "-a", "-v"] : List String)[4]? = some "-a" →
      "path.ply" ∈ (runMain env0 ["demo", "sphere", "rrt", "1", "-a", "-v"]).files ∧
      "atlas.ply" ∈ (runMain env0 ["demo", "sphere", "rrt", "1", "-a", "-v"]).files ∧
      "graph.ply" ∈ (runMain env0 ["demo", "sphere", "rrt", "1", "-a", "-v"]).files) ∧
    ((["demo", "sphere", "rrt", "1", "-a", "-v"] : List String)[4]? = some "-p" →
      "path.ply" ∈ (runMain env0 ["demo", "sphere", "rrt", "1", "-a", "-v"]).files ∧
      "graph.ply" ∈ (runMain env0 ["demo", "sphere", "rrt", "1", "-a", "-v"]).files ∧
      "atlas.ply" ∉ (runMain env0 ["demo", "sphere", "rrt", "1", "-a", "-v"]).files)) :=
  c3_verbose_3d_dumps env0 ["demo", "sphere", "rrt", "1", "-a", "-v"]
    rfl rfl rfl rfl rfl (by decide) rfl (by decide)

lemma modeRun_outcomes (env : Env) (verbose isAtlas : Bool) (tArg : String)
    (hs : env.spaceOk = true) (hpl : env.plannerOk = true)
    (ht : 0 < env.atof tArg)
    (hub : (animLoop env env.waypoints).2.2 = false) :
    (env.statSolved = false →
      Event.noSolutionMsg ∈ (modeRun env verbose isAtlas tArg).events ∧
      Event.approximateMsg ∉ (modeRun env verbose isAtlas tArg).events ∧
      (modeRun env verbose isAtlas tArg).usagePrinted = false ∧
      (modeRun env verbose isAtlas tArg).solveCalled = true ∧
      (modeRun env verbose isAtlas tArg).ub = false ∧
      (modeRun env verbose isAtlas tArg).exitCode = 0) ∧
    (env.statSolved = true → env.statApproximate = true →
      Event.approximateMsg ∈ (modeRun env verbose isAtlas tArg).events ∧
      (modeRun env verbose isAtlas tArg).usagePrinted = false ∧
      (modeRun env verbose isAtlas tArg).exitCode = 0) := by
  unfold modeRun
  rw [if_neg (by simp [hs]), if_neg (by simp [hpl]), if_neg (not_le.mpr ht)]
  constructor
  · intro hnosol
    simp only [hnosol, Bool.false_eq_true, if_false]
    refine ⟨by simp, ?_, trivial, trivial, trivial, trivial⟩
    intro hmem
    revert hmem
    split_ifs <;> simp
  · intro hsol happrox
    simp only [hsol, if_true, hub, Bool.false_eq_true, if_false, happrox]
    refine ⟨by simp, trivial, trivial⟩

/-- C6: once `solve` is reached (recognized mode, construction succeeded,
positive time limit), a solve call reporting no solution prints
"No solution found." without any usage message, abort or approximate-success
message, and the process returns 0; a solve call reporting an approximate
solution additionally prints "Solution is approximate.". -/
theorem c6_planning_outcomes (env : Env) (args : List String)
    (hc : args.length = 5 ∨ (args.length = 6 ∧ args[5]? = some "-v"))
    (hm : args[4]? = some "-a" ∨ args[4]? = some "-p")
    (hs : env.spaceOk = true) (hpl : env.plannerOk = true)
    (ht : 0 < env.atof (args.getD 3 ""))
    (hub : (animLoop env env.waypoints).2.2 = false) :
    (env.statSolved = false →
      Event.noSolutionMsg ∈ (runMain env args).events ∧
      Event.approximateMsg ∉ (runMain env args).events ∧
      (runMain env args).usagePrinted = false ∧
      (runMain env args).solveCalled = true ∧
      (runMain env args).ub = false ∧
      (runMain env args).exitCode = 0) ∧
    (env.statSolved = true → env.statApproximate = true →
      Event.approximateMsg ∈ (runMain env args).events ∧
      (runMain env args).usagePrinted = false ∧
      (runMain env args).exitCode = 0) := by
  rcases hm with ha | hp'
  · rw [runMain_eq_modeRun_a env args hc ha]
    exact modeRun_outcomes env _ true _ hs hpl ht hub
  · have hna : ¬ args[4]? = some "-a" := by
      rw [hp']
      decide
    rw [runMain_eq_modeRun_p env args hc hp' hna]
    exact modeRun_outcomes env _ false _ hs hpl ht hub

/-- C6 witness: the outcome statement at a concrete no-solution atlas-mode run. -/
theorem c6_witness :
    ((envNoSolution.statSolved = false →
      Event.noSolutionMsg ∈ (runMain envNoSolution ["demo", "sphere", "rrt", "1", "-a"]).events ∧
      Event.approximateMsg ∉ (runMain envNoSolution ["demo", "sphere", "rrt", "1", "-a"]).events ∧
      (runMain envNoSolution ["demo", "sphere", "rrt", "1", "-a"]).usagePrinted = false ∧
      (runMain envNoSolution ["demo", "sphere", "rrt", "1", "-a"]).solveCalled = true ∧
      (runMain envNoSolution ["demo", "sphere", "rrt", "1", "-a"]).ub = false ∧
      (runMain envNoSolution ["demo", "sphere", "rrt", "1", "-a"]).exitCode = 0) ∧
    (envNoSolution.statSolved = true → envNoSolution.statApproximate = true →
      Event.approximateMsg ∈ (runMain envNoSolution ["demo", "sphere", "rrt", "1", "-a"]).events ∧
      (runMain envNoSolution ["demo", "sphere", "rrt", "1", "-a"]).usagePrinted = false ∧
      (runMain envNoSolution ["demo", "sphere", "rrt", "1", "-a"]).exitCode = 0)) :=
  c6_planning_outcomes envNoSolution ["demo", "sphere", "rrt", "1", "-a"]
    (Or.inl rfl) (Or.inl (by decide)) rfl rfl (by decide) (by decide)


/-- C7: the lines the anim loop writes are, per solution-path segment (each
consecutive waypoint pair), the states `stateList[1..last]` when the
traversal's first and last states differ and exactly the single state
`stateList[0]` when they are equal; and every written line is the coordinate
vector view of one re-interpolated state. -/
theorem c7_anim_lines (env : Env) (ws : List StateId) (hne : ws ≠ [])
    (hlt : ws.length < 2 ^ 64) (hT : ∀ a b, env.traverse a b ≠ []) :
    (animLoop env ws).1 =
      (consecutivePairs ws).flatMap (fun p => segLines env p.1 p.2) ∧
    ∀ l ∈ (animLoop env ws).1, ∃ s, l = env.vec s := by
  have h := animLoop_spec env hT ws hne hlt
  constructor
  · rw [h]
  · rw [h]
    intro l hl
    rcases List.mem_flatMap.mp hl with ⟨p, hp, hlp⟩
    revert hlp
    unfold segLines
    cases h3 : env.traverse p.1 p.2 with
    | nil =>
      intro hlp
      exact absurd hlp (List.not_mem_nil l)
    | cons s tl =>
      intro hlp
      dsimp only at hlp
      by_cases he : env.equalStates s (tl.getLastD s) = true
      · rw [if_pos he] at hlp
        exact ⟨s, List.mem_singleton.mp hlp⟩
      · rw [if_neg he] at hlp
        rcases List.mem_map.mp hlp with ⟨t, _, rfl⟩
        exact ⟨t, rfl⟩

/-- C7 witness: the per-segment line description at a concrete environment
and two-waypoint path. -/
theorem c7_witness :
    ((animLoop env0 [0, 1]).1 =
      (consecutivePairs [0, 1]).flatMap (fun p => segLines env0 p.1 p.2) ∧
    ∀ l ∈ (animLoop env0 [0, 1]).1, ∃ s, l = env0.vec s) :=
  c7_anim_lines env0 [0, 1] (by decide) (by decide)
    (fun a b => by simp [env0])

/-- C9: the anim loop iterates an unsigned index `i` while
`i < waypoints.size() - 1`; for an empty waypoint list the unsigned
subtraction wraps to `2 ^ 64 - 1` and the first access is out of bounds, so
(given the traversals themselves are well defined) all accesses are in bounds
if and only if the waypoint list is non-empty. -/
theorem c9_anim_loop_bounds (env : Env) (ws : List StateId)
    (hlt : ws.length < 2 ^ 64) (hT : ∀ a b, env.traverse a b ≠ []) :
    sub64 0 1 = 2 ^ 64 - 1 ∧ ((animLoop env ws).2.2 = false ↔ ws ≠ []) := by
  refine ⟨sub64_zero_one, ?_, ?_⟩
  · intro h hnil
    subst hnil
    rw [animLoop_nil_ub] at h
    simp at h
  · intro hne
    rw [animLoop_spec env hT ws hne hlt]

/-- C9 witness: the bound statement at a concrete environment and a
one-waypoint path. -/
theorem c9_witness :
    sub64 0 1 = 2 ^ 64 - 1 ∧ ((animLoop env0 [7]).2.2 = false ↔ ([7] : List StateId) ≠ []) :=
  c9_anim_loop_bounds env0 [7] (by decide) (fun a b => by simp [env0])

lemma lengthMsg_mem_modeRun (env : Env) (verbose isAtlas : Bool) (tArg : String)
    (hs : env.spaceOk = true) (hpl : env.plannerOk = true)
    (ht : 0 < env.atof tArg) (hsol : env.statSolved = true)
    (hub : (animLoop env env.waypoints).2.2 = false) :
    Event.lengthMsg ((animLoop env env.waypoints).2.1) ∈
      (modeRun env verbose isAtlas tArg).events := by
  unfold modeRun
  rw [if_neg (by simp [hs]), if_neg (by simp [hpl]), if_neg (not_le.mpr ht)]
  simp [hsol, hub]

/-- C10: once `solve` succeeds, the printed `Length` is the sum over all
consecutive waypoint pairs of that segment's contribution, where a segment
whose traversal returns equal first and last states contributes exactly 0 and
any other segment contributes the sum of distances between its consecutive
re-interpolated states; and with nonnegative distances the accumulated length
never decreases over the loop. -/
theorem c10_length_sum (env : Env) (args : List String)
    (hc : args.length = 5 ∨ (args.length = 6 ∧ args[5]? = some "-v"))
    (hm : args[4]? = some "-a" ∨ args[4]? = some "-p")
    (hs : env.spaceOk = true) (hpl : env.plannerOk = true)
    (ht : 0 < env.atof (args.getD 3 "")) (hsol : env.statSolved = true)
    (hne : env.waypoints ≠ []) (hlt : env.waypoints.length < 2 ^ 64)
    (hT : ∀ a b, env.traverse a b ≠ []) :
    Event.lengthMsg (((consecutivePairs env.waypoints).map
        (fun p => segLen env p.1 p.2)).sum) ∈ (runMain env args).events ∧
    (∀ a b s tl, env.traverse a b = s :: tl →
      env.equalStates s (tl.getLastD s) = true → segLen env a b = 0) ∧
    ((∀ a b, 0 ≤ env.distance a b) →
      ∀ (js : List Nat) (lines : List (List Rat)) (len : Rat),
        len ≤ (animLoopAux env env.waypoints js lines len).2.1) := by
  have hAL := animLoop_spec env hT env.waypoints hne hlt
  have hub : (animLoop env env.waypoints).2.2 = false := by rw [hAL]
  have hval : (animLoop env env.waypoints).2.1 =
      ((consecutivePairs env.waypoints).map (fun p => segLen env p.1 p.2)).sum := by
    rw [hAL]
  refine ⟨?_, ?_, ?_⟩
  · rw [← hval]
    rcases hm with ha | hp'
    · rw [runMain_eq_modeRun_a env args hc ha]
      exact lengthMsg_mem_modeRun env _ true _ hs hpl ht hsol hub
    · have hna : ¬ args[4]? = some "-a" := by
        rw [hp']
        decide
      rw [runMain_eq_modeRun_p env args hc hp' hna]
      exact lengthMsg_mem_modeRun env _ false _ hs hpl ht hsol hub
  · intro a b s tl h3 he
    unfold segLen
    rw [h3]
    dsimp only
    rw [if_pos he]
  · intro hD
    exact animLoopAux_len_mono env hD env.waypoints

/-- C10 witness: the length statement at a concrete successful atlas-mode run. -/
theorem c10_witness :
    (Event.lengthMsg (((consecutivePairs env0.waypoints).map
        (fun p => segLen env0 p.1 p.2)).sum) ∈
      (runMain env0 ["demo", "sphere", "rrt", "1", "-a"]).events ∧
    (∀ a b s tl, env0.traverse a b = s :: tl →
      env0.equalStates s (tl.getLastD s) = true → segLen env0 a b = 0) ∧
    ((∀ a b, 0 ≤ env0.distance a b) →
      ∀ (js : List Nat) (lines : List (List Rat)) (len : Rat),
        len ≤ (animLoopAux env0 env0.waypoints js lines len).2.1)) :=
  c10_length_sum env0 ["demo", "sphere", "rrt", "1", "-a"]
    (Or.inl rfl) (Or.inl (by decide)) rfl rfl (by decide) rfl (by decide) (by decide)
    (fun a b => by simp [env0])

end ConstrainedPlanning
